import Mathlib

set_option maxRecDepth 20000

/-!
Shallow embedding of the issue-tracker server (Newnop repository).

The embedded code is the Express route layer together with the storage schema:
  * src/server/routes/issues.js — issue CRUD, search/filter/pagination, stats,
    and the auth routes appended in the same file (register, login, me);
  * src/unnamed/part_003 and part_004 — the authenticateToken middleware;
  * src/unnamed/part_001 — the SQL migration (column types, enum sets,
    VARCHAR capacities, collation).

JavaScript-specific behaviors that the routes rely on are modelled explicitly:
string truthiness (absent and empty string are falsy), parseInt's
longest-numeric-prefix parsing, trim, and case-insensitive substring matching
(the utf8mb4_unicode_ci collation of the tables; the variant route file
src/unnamed/part_000 spells the same intent as mode: 'insensitive').
All string manipulation is defined at the character-list level by structural
recursion so every definition evaluates inside the kernel.
-/

namespace IssueTracker

/-- Lowercase one character, ASCII range; models the case folding used by the
case-insensitive collation for the ASCII subset. -/
def asciiLower (c : Char) : Char :=
  if 'A' ≤ c ∧ c ≤ 'Z' then Char.ofNat (c.toNat + 32) else c

/-- Character list of a string, lowercased. -/
def lowerChars (s : String) : List Char := s.data.map asciiLower

/-- Case-insensitive substring test: models the SQL `LIKE CONCAT(CONTAINS)`
comparison issued for `title: { contains: search }` under the case-insensitive
collation utf8mb4_unicode_ci declared by the migration (src/unnamed/part_001);
the variant route (src/unnamed/part_000) requests the same semantics
explicitly with mode: 'insensitive'. -/
def containsCI (hay needle : String) : Bool :=
  decide (lowerChars needle <:+: lowerChars hay)

/-- Model of JavaScript String.prototype.trim(): drop whitespace from both
ends. -/
def jsTrim (s : String) : String :=
  String.mk (((s.data.dropWhile Char.isWhitespace).reverse.dropWhile Char.isWhitespace).reverse)

/-- Numeric value of a decimal digit character. -/
def digitVal (c : Char) : Nat := c.toNat - 48

/-- Value of a list of decimal digit characters. -/
def digitsToNat (ds : List Char) : Nat := ds.foldl (fun acc c => acc * 10 + digitVal c) 0

/-- Model of JavaScript parseInt(s) with no radix argument, for base-10 inputs:
skip leading whitespace, take an optional sign, then the longest run of decimal
digits; NaN (modelled as none) when that run is empty.  parseInt("5abc") is 5,
parseInt("abc") is NaN. -/
def jsParseInt (s : String) : Option Int :=
  let cs := s.data.dropWhile Char.isWhitespace
  let signed : Bool × List Char :=
    match cs with
    | '-' :: r => (true, r)
    | '+' :: r => (false, r)
    | r => (false, r)
  let ds := signed.2.takeWhile Char.isDigit
  if ds.isEmpty then none
  else if signed.1 then some (-(digitsToNat ds : Int)) else some ((digitsToNat ds) : Int)

/-- JavaScript truthiness of an optional string value: undefined and the empty
string are falsy, every other string is truthy. -/
def truthy : Option String → Bool
  | none => false
  | some s => !(s == "")

/-- Model of the JavaScript expression `x || dflt` on an optional string. -/
def jsOr (o : Option String) (dflt : String) : String :=
  match o with
  | some s => if s == "" then dflt else s
  | none => dflt

/-- Model of `parseInt(x) || dflt` used for the page and limit query
parameters: NaN and 0 are falsy and fall back to the default. -/
def resolveIntParam (dflt : Int) (q : Option String) : Int :=
  match q with
  | none => dflt
  | some s =>
    match jsParseInt s with
    | none => dflt
    | some v => if v == 0 then dflt else v

/-- Row of the Issue table (src/unnamed/part_001).  status, priority and
severity are stored as strings; the enum column constraint is stated
separately where a theorem needs it.  createdAt is an abstract integer
timestamp. -/
structure Issue where
  id : Int
  title : String
  description : String
  status : String
  priority : String
  severity : String
  userId : Int
  createdAt : Int
deriving Repr, DecidableEq

/-- The issue store: the rows of the Issue table. -/
abbrev Store := List Issue

/-- Declared status enum (routes and the ENUM column agree on this set). -/
def validStatuses : List String := ["Open", "InProgress", "Resolved", "Closed"]

/-- Declared priority enum. -/
def validPriorities : List String := ["Low", "Medium", "High", "Critical"]

/-- Declared severity enum. -/
def validSeverities : List String := ["Low", "Medium", "High", "Critical"]

/-- Raw query parameters of GET /api/issues; none models an absent
parameter. -/
structure ListQuery where
  page : Option String := none
  limit : Option String := none
  search : Option String := none
  status : Option String := none
  priority : Option String := none
  severity : Option String := none
deriving Repr, DecidableEq

/-- Predicate equivalent of the `where` object the list route builds
(src/server/routes/issues.js lines 59-73): always the owner scope; the OR of
title/description contains when `if (search)` passes (truthy), and each
equality filter when the corresponding `if (status)` etc. passes. -/
def listWhere (callerId : Int) (q : ListQuery) (i : Issue) : Bool :=
  i.userId == callerId &&
  (if truthy q.search then
    containsCI i.title (q.search.getD "") || containsCI i.description (q.search.getD "")
   else true) &&
  (if truthy q.status then i.status == q.status.getD "" else true) &&
  (if truthy q.priority then i.priority == q.priority.getD "" else true) &&
  (if truthy q.severity then i.severity == q.severity.getD "" else true)

/-- Comparator for orderBy createdAt desc. -/
def byCreatedDesc (a b : Issue) : Bool := decide (b.createdAt ≤ a.createdAt)

/-- Insert a row into a list already ordered by createdAt descending. -/
def insertByCreated (i : Issue) : List Issue → List Issue
  | [] => [i]
  | j :: rest => if byCreatedDesc i j then i :: j :: rest else j :: insertByCreated i rest

/-- Rows sorted most recently created first (insertion sort; any sort
realizes the SQL ORDER BY createdAt DESC). -/
def sortByCreatedDesc (l : List Issue) : List Issue := l.foldr insertByCreated []

/-- Pagination envelope of the list response. -/
structure Pagination where
  currentPage : Int
  totalPages : Int
  totalCount : Nat
  limit : Int
  hasNextPage : Bool
  hasPreviousPage : Bool
deriving Repr, DecidableEq

/-- Successful list response (HTTP status, issues page, pagination). -/
structure ListResponse where
  status : Nat
  issues : List Issue
  pagination : Pagination
deriving Repr, DecidableEq

/-- Ceiling division on naturals, the integer value of Math.ceil(a / b) for
nonnegative a and positive b. -/
def ceilDivNat (a b : Nat) : Nat := (a + b - 1) / b

/-- The rows findMany returns for a skip/take window over the ordered rows:
a nonnegative take drops skip rows and takes take rows; a negative take is
Prisma's take-from-the-end — skip and |take| are applied against the reversed
order and the result is returned in the requested order. -/
def pageWindow (sorted : List Issue) (skip take : Int) : List Issue :=
  if 0 ≤ take then (sorted.drop skip.toNat).take take.toNat
  else (((sorted.reverse).drop skip.toNat).take (-take).toNat).reverse

/-- Math.ceil(totalCount / limit) for a nonzero integer limit: ceiling
division for a positive limit, and for a negative limit the negation of the
floor division by |limit| (Math.ceil of a negative quotient).  A zero limit is
unreachable: `parseInt(x) || 10` never resolves to 0. -/
def jsCeilDiv (a : Nat) (b : Int) : Int :=
  if 0 ≤ b then ((ceilDivNat a b.toNat : Nat) : Int)
  else -(((a / (-b).toNat : Nat) : Nat) : Int)

/-- Model of GET /api/issues (src/server/routes/issues.js lines 51-117):
resolve page and limit, build the where object, fetch the page
(skip/take over the rows ordered by createdAt desc), count all matching rows,
and shape the pagination envelope.  A negative take (e.g. ?limit=-1) is a
real store behavior — Prisma takes the last |take| rows — modelled by
pageWindow; a negative skip (negative page, or page above 1 with a negative
limit) is rejected by Prisma, which the route's catch-all turns into a 500,
modelled as the error branch. -/
def listIssues (store : Store) (callerId : Int) (q : ListQuery) : Except String ListResponse :=
  let page := resolveIntParam 1 q.page
  let limit := resolveIntParam 10 q.limit
  let skip := (page - 1) * limit
  if 0 ≤ skip then
    let matching := store.filter (listWhere callerId q)
    let pageIssues := pageWindow (sortByCreatedDesc matching) skip limit
    let totalCount := matching.length
    Except.ok {
      status := 200
      issues := pageIssues
      pagination := {
        currentPage := page
        totalPages := jsCeilDiv totalCount limit
        totalCount := totalCount
        limit := limit
        hasNextPage := decide (page < jsCeilDiv totalCount limit)
        hasPreviousPage := decide (1 < page) } }
  else Except.error "negative skip rejected by the store"

/-- Specification-side membership condition, transcribing claim C1: owner
scope, AND (title contains OR description contains, case-insensitively) when a
search term is supplied, AND each supplied equality filter.  A parameter is
regarded as supplied when it carries a non-empty value, which is exactly the
JavaScript truthiness test the handler applies to each of these query
parameters. -/
def specListPred (callerId : Int) (q : ListQuery) (i : Issue) : Prop :=
  i.userId = callerId ∧
  (∀ s, q.search = some s → s ≠ "" →
    (containsCI i.title s = true ∨ containsCI i.description s = true)) ∧
  (∀ v, q.status = some v → v ≠ "" → i.status = v) ∧
  (∀ v, q.priority = some v → v ≠ "" → i.priority = v) ∧
  (∀ v, q.severity = some v → v ≠ "" → i.severity = v)

/-- Stats response: counts is the JavaScript object serialized as an ordered
key/value list, total the reduce over its values. -/
structure StatsResponse where
  counts : List (String × Nat)
  total : Nat
deriving Repr, DecidableEq

/-- The seeded counts object { Open: 0, InProgress: 0, Resolved: 0, Closed: 0 }. -/
def seedCounts : List (String × Nat) :=
  [("Open", 0), ("InProgress", 0), ("Resolved", 0), ("Closed", 0)]

/-- JavaScript object assignment obj[k] = v on an ordered key/value list:
overwrite in place when the key exists, append otherwise. -/
def setKey : List (String × Nat) → String → Nat → List (String × Nat)
  | [], k, v => [(k, v)]
  | (k1, v1) :: rest, k, v =>
    if k1 == k then (k, v) :: rest else (k1, v1) :: setKey rest k v

/-- Model of prisma.issue.groupBy by status with a count per group: one entry
per distinct status value occurring in the rows, carrying the number of rows
with that status. -/
def groupByStatus (l : List Issue) : List (String × Nat) :=
  ((l.map Issue.status).dedup).map (fun s => (s, (l.filter (fun i => i.status == s)).length))

/-- Model of GET /api/issues/stats (src/server/routes/issues.js lines 14-48):
group the caller's issues by status, merge the groups into the seeded counts
object, and total the values. -/
def getStats (store : Store) (callerId : Int) : StatsResponse :=
  let userIssues := store.filter (fun i => i.userId == callerId)
  let counts := (groupByStatus userIssues).foldl (fun acc p => setKey acc p.1 p.2) seedCounts
  { counts := counts, total := (counts.map Prod.snd).sum }

/-- Number of the caller's issues with the given status. -/
def statusCount (store : Store) (callerId : Int) (s : String) : Nat :=
  ((store.filter (fun i => i.userId == callerId)).filter (fun i => i.status == s)).length

/-- Model of prisma.issue.findUnique({ where: { id } }): ids are a primary
key, so the first (only) row with that id. -/
def findIssue (store : Store) (issueId : Int) : Option Issue :=
  store.find? (fun i => i.id == issueId)

/-- Outcome of GET /api/issues/:id. -/
inductive GetOutcome where
  | error (status : Nat) (message : String)
  | ok (issue : Issue)
deriving Repr, DecidableEq

/-- HTTP status of a getById outcome (200 on success). -/
def GetOutcome.statusCode : GetOutcome → Nat
  | .error s _ => s
  | .ok _ => 200

/-- Body of GET /api/issues/:id after the id parsed (src/server/routes/issues.js
lines 131-162): 404 when the row is missing, 403 when the caller is not the
owner, otherwise the issue. -/
def getByIdParsed (store : Store) (callerId : Int) (issueId : Int) : GetOutcome :=
  match findIssue store issueId with
  | none => .error 404 "Issue not found"
  | some issue =>
    if issue.userId ≠ callerId then
      .error 403 "You do not have permission to view this issue"
    else .ok issue

/-- Model of GET /api/issues/:id (src/server/routes/issues.js lines 120-172):
parseInt the id parameter, 400 when NaN, then the existence and ownership
checks. -/
def getById (store : Store) (callerId : Int) (idParam : String) : GetOutcome :=
  match jsParseInt idParam with
  | none => .error 400 "Invalid issue ID"
  | some issueId => getByIdParsed store callerId issueId

/-- Request body for create and update; none models an absent field. -/
structure IssueBody where
  title : Option String := none
  description : Option String := none
  status : Option String := none
  priority : Option String := none
  severity : Option String := none
deriving Repr, DecidableEq

/-- Validation message for an out-of-enum status. -/
def invalidStatusMsg : String := "Invalid status. Must be one of: Open, InProgress, Resolved, Closed"

/-- Validation message for an out-of-enum priority. -/
def invalidPriorityMsg : String := "Invalid priority. Must be one of: Low, Medium, High, Critical"

/-- Validation message for an out-of-enum severity. -/
def invalidSeverityMsg : String := "Invalid severity. Must be one of: Low, Medium, High, Critical"

/-- Capacity of the title column: the migration (src/unnamed/part_001)
declares `title` VARCHAR(191). -/
def titleColumnCapacity : Nat := 191

/-- Model of the storage layer's INSERT into the Issue table: under MySQL
strict mode a title longer than the VARCHAR(191) column rejects the row, which
the route's catch-all surfaces as a 500. -/
def dbInsertIssue (store : Store) (i : Issue) : Except String Store :=
  if i.title.length ≤ titleColumnCapacity then Except.ok (i :: store)
  else Except.error "Data too long for column title"

/-- Outcome of POST /api/issues. -/
inductive CreateOutcome where
  | error (status : Nat) (message : String)
  | ok (issue : Issue) (newStore : Store)
deriving Repr, DecidableEq

/-- HTTP status of a create outcome (201 on success). -/
def CreateOutcome.statusCode : CreateOutcome → Nat
  | .error s _ => s
  | .ok _ _ => 201

/-- Model of POST /api/issues (src/server/routes/issues.js lines 175-272):
the required-fields check, the title and description length checks on the
trimmed values, the enum checks on truthy status/priority/severity, then the
insert with `x || default` defaulting.  newId and now stand for the
auto-increment id and the server clock. -/
def createIssue (store : Store) (callerId : Int) (b : IssueBody) (newId now : Int) : CreateOutcome :=
  if !truthy b.title || !truthy b.description then
    .error 400 "Title and description are required"
  else if (jsTrim (b.title.getD "")).length < 3 then
    .error 400 "Title must be at least 3 characters long"
  else if 255 < (jsTrim (b.title.getD "")).length then
    .error 400 "Title must not exceed 255 characters"
  else if (jsTrim (b.description.getD "")).length < 10 then
    .error 400 "Description must be at least 10 characters long"
  else if 5000 < (jsTrim (b.description.getD "")).length then
    .error 400 "Description must not exceed 5000 characters"
  else if truthy b.status && !(validStatuses.contains (b.status.getD "")) then
    .error 400 invalidStatusMsg
  else if truthy b.priority && !(validPriorities.contains (b.priority.getD "")) then
    .error 400 invalidPriorityMsg
  else if truthy b.severity && !(validSeverities.contains (b.severity.getD "")) then
    .error 400 invalidSeverityMsg
  else
    match dbInsertIssue store {
      id := newId
      title := jsTrim (b.title.getD "")
      description := jsTrim (b.description.getD "")
      status := jsOr b.status "Open"
      priority := jsOr b.priority "Medium"
      severity := jsOr b.severity "Medium"
      userId := callerId
      createdAt := now } with
    | Except.ok newStore =>
      .ok {
        id := newId
        title := jsTrim (b.title.getD "")
        description := jsTrim (b.description.getD "")
        status := jsOr b.status "Open"
        priority := jsOr b.priority "Medium"
        severity := jsOr b.severity "Medium"
        userId := callerId
        createdAt := now } newStore
    | Except.error e => .error 500 e

/-- Outcome of PUT /api/issues/:id. -/
inductive UpdateOutcome where
  | error (status : Nat) (message : String)
  | ok (issue : Issue) (newStore : Store)
deriving Repr, DecidableEq

/-- HTTP status of an update outcome (200 on success). -/
def UpdateOutcome.statusCode : UpdateOutcome → Nat
  | .error s _ => s
  | .ok _ _ => 200

/-- Prisma partial-update semantics: a field present in the data object
overwrites the stored value, an absent field keeps it. -/
def applyData (d : IssueBody) (i : Issue) : Issue :=
  { i with
    title := d.title.getD i.title
    description := d.description.getD i.description
    status := d.status.getD i.status
    priority := d.priority.getD i.priority
    severity := d.severity.getD i.severity }

/-- The store after prisma.issue.update on the row with the given id. -/
def applyUpdate (store : Store) (issueId : Int) (d : IssueBody) : Store :=
  store.map (fun i => if i.id == issueId then applyData d i else i)

/-- Last step of the update route: severity check, then the update call. -/
def updateAfterPriority (store : Store) (issueId : Int) (existing : Issue) (b : IssueBody)
    (d : IssueBody) : UpdateOutcome :=
  match b.severity with
  | some v =>
    if !(validSeverities.contains v) then .error 400 invalidSeverityMsg
    else
      let d2 := { d with severity := some v }
      .ok (applyData d2 existing) (applyUpdate store issueId d2)
  | none => .ok (applyData d existing) (applyUpdate store issueId d)

/-- Update route after the status field: priority check. -/
def updateAfterStatus (store : Store) (issueId : Int) (existing : Issue) (b : IssueBody)
    (d : IssueBody) : UpdateOutcome :=
  match b.priority with
  | some v =>
    if !(validPriorities.contains v) then .error 400 invalidPriorityMsg
    else updateAfterPriority store issueId existing b { d with priority := some v }
  | none => updateAfterPriority store issueId existing b d

/-- Update route after the description field: status check. -/
def updateAfterDescription (store : Store) (issueId : Int) (existing : Issue) (b : IssueBody)
    (d : IssueBody) : UpdateOutcome :=
  match b.status with
  | some v =>
    if !(validStatuses.contains v) then .error 400 invalidStatusMsg
    else updateAfterStatus store issueId existing b { d with status := some v }
  | none => updateAfterStatus store issueId existing b d

/-- Update route after the title field: description length checks. -/
def updateAfterTitle (store : Store) (issueId : Int) (existing : Issue) (b : IssueBody)
    (d : IssueBody) : UpdateOutcome :=
  match b.description with
  | some v =>
    if (jsTrim v).length < 10 then .error 400 "Description must be at least 10 characters long"
    else if 5000 < (jsTrim v).length then .error 400 "Description must not exceed 5000 characters"
    else updateAfterDescription store issueId existing b { d with description := some (jsTrim v) }
  | none => updateAfterDescription store issueId existing b d

/-- Body of PUT /api/issues/:id after the id, existence and ownership checks
(src/server/routes/issues.js lines 306-391): per-field validation with early
returns in the order title, description, status, priority, severity,
accumulating the updateData object, then the update call. -/
def updateWithBody (store : Store) (issueId : Int) (existing : Issue) (b : IssueBody) : UpdateOutcome :=
  match b.title with
  | some v =>
    if (jsTrim v).length < 3 then .error 400 "Title must be at least 3 characters long"
    else if 255 < (jsTrim v).length then .error 400 "Title must not exceed 255 characters"
    else updateAfterTitle store issueId existing b { title := some (jsTrim v) }
  | none => updateAfterTitle store issueId existing b {}

/-- Body of PUT /api/issues/:id after the id parsed: existence check, then
ownership, then the field checks. -/
def updateParsed (store : Store) (callerId : Int) (issueId : Int) (b : IssueBody) : UpdateOutcome :=
  match findIssue store issueId with
  | none => .error 404 "Issue not found"
  | some existing =>
    if existing.userId ≠ callerId then
      .error 403 "You do not have permission to update this issue"
    else updateWithBody store issueId existing b

/-- Model of PUT /api/issues/:id (src/server/routes/issues.js lines 275-401). -/
def updateIssue (store : Store) (callerId : Int) (idParam : String) (b : IssueBody) : UpdateOutcome :=
  match jsParseInt idParam with
  | none => .error 400 "Invalid issue ID"
  | some issueId => updateParsed store callerId issueId b

/-- Outcome of DELETE /api/issues/:id. -/
inductive DeleteOutcome where
  | error (status : Nat) (message : String)
  | ok (newStore : Store)
deriving Repr, DecidableEq

/-- HTTP status of a delete outcome (200 on success). -/
def DeleteOutcome.statusCode : DeleteOutcome → Nat
  | .error s _ => s
  | .ok _ => 200

/-- Body of DELETE /api/issues/:id after the id parsed. -/
def deleteParsed (store : Store) (callerId : Int) (issueId : Int) : DeleteOutcome :=
  match findIssue store issueId with
  | none => .error 404 "Issue not found"
  | some existing =>
    if existing.userId ≠ callerId then
      .error 403 "You do not have permission to delete this issue"
    else .ok (store.filter (fun i => !(i.id == issueId)))

/-- Model of DELETE /api/issues/:id (src/server/routes/issues.js lines
403-451). -/
def deleteIssue (store : Store) (callerId : Int) (idParam : String) : DeleteOutcome :=
  match jsParseInt idParam with
  | none => .error 400 "Invalid issue ID"
  | some issueId => deleteParsed store callerId issueId

/-- Title length rule shared by the create and update paths (3 to 255 chars
after trim), returning the route's message for the first violated bound. -/
def titleRuleError (t : String) : Option String :=
  if (jsTrim t).length < 3 then some "Title must be at least 3 characters long"
  else if 255 < (jsTrim t).length then some "Title must not exceed 255 characters"
  else none

/-- Description length rule shared by the create and update paths (10 to 5000
chars after trim). -/
def descriptionRuleError (dsc : String) : Option String :=
  if (jsTrim dsc).length < 10 then some "Description must be at least 10 characters long"
  else if 5000 < (jsTrim dsc).length then some "Description must not exceed 5000 characters"
  else none

/-- First of two options, the explicit first-error combinator. -/
def orFirst (a b : Option String) : Option String :=
  match a with
  | some m => some m
  | none => b

/-- Specification-side first validation error of an update body: each supplied
field checked in the fixed order title, description, status, priority,
severity; the enum rules reject every out-of-enum supplied value, the empty
string included. -/
def updateFirstError (b : IssueBody) : Option String :=
  orFirst (b.title.bind titleRuleError)
    (orFirst (b.description.bind descriptionRuleError)
      (orFirst (b.status.bind (fun v => if !(validStatuses.contains v) then some invalidStatusMsg else none))
        (orFirst (b.priority.bind (fun v => if !(validPriorities.contains v) then some invalidPriorityMsg else none))
          (b.severity.bind (fun v => if !(validSeverities.contains v) then some invalidSeverityMsg else none)))))

/-- The updateData object the update route accumulates from a body that passed
validation: title and description stored trimmed, the enum fields verbatim,
absent fields absent. -/
def updateDataOf (b : IssueBody) : IssueBody :=
  { title := b.title.map jsTrim
    description := b.description.map jsTrim
    status := b.status
    priority := b.priority
    severity := b.severity }

/-- Identity the Access Guard attaches to the request on success (the decoded
{ userId, email } claim). -/
structure AuthedUser where
  userId : Int
  email : String
deriving Repr, DecidableEq

/-- Outcome of the authenticateToken middleware: reject with a status and
message, or proceed with the caller identity. -/
inductive GuardOutcome where
  | reject (status : Nat) (message : String)
  | proceed (user : AuthedUser)
deriving Repr, DecidableEq

/-- HTTP status of a guard outcome (200 when it proceeds, standing for
whatever the downstream handler returns). -/
def GuardOutcome.statusCode : GuardOutcome → Nat
  | .reject s _ => s
  | .proceed _ => 200

/-- JavaScript String.prototype.split(sep) for a single-character separator,
written as structural recursion over the characters. -/
def splitCharAux (sep : Char) : List Char → List Char → List String
  | [], acc => [String.mk acc.reverse]
  | c :: cs, acc =>
    if c == sep then String.mk acc.reverse :: splitCharAux sep cs []
    else splitCharAux sep cs (c :: acc)

/-- Split a string on a separator character. -/
def splitChar (sep : Char) (s : String) : List String := splitCharAux sep s.data []

/-- Token extraction of the middleware: `authHeader && authHeader.split(' ')[1]`
— none when the header is absent, when there is no second space-separated
part, or when that part is the empty string (all falsy in the route's
`if (!token)` test). -/
def extractToken (authHeader : Option String) : Option String :=
  match authHeader with
  | none => none
  | some h =>
    match (splitChar ' ' h).get? 1 with
    | none => none
    | some t => if t == "" then none else some t

/-- Model of the authenticateToken middleware (src/unnamed/part_003 and
part_004): 401 when no token is presented; otherwise jwt.verify — modelled as
the verification function `verify`, none meaning the signature or expiry check
threw — and 403 when verification fails, the decoded identity otherwise. -/
def authenticateToken (verify : String → Option AuthedUser) (authHeader : Option String) : GuardOutcome :=
  match extractToken authHeader with
  | none => .reject 401 "Access denied. No token provided."
  | some tk =>
    match verify tk with
    | some u => .proceed u
    | none => .reject 403 "Invalid or expired token."

/-- A protected endpoint: the guard runs first and the handler only on
proceed, so a rejection is returned unchanged whatever the handler would
do. -/
def protectedRoute (verify : String → Option AuthedUser) (handler : AuthedUser → Nat × String)
    (authHeader : Option String) : Nat × String :=
  match authenticateToken verify authHeader with
  | .reject s m => (s, m)
  | .proceed u => handler u

/-- Row of the User table (src/unnamed/part_001): the password column stores
the bcrypt hash. -/
structure User where
  id : Int
  email : String
  password : String
  name : Option String
  createdAt : Int
  updatedAt : Int
deriving Repr, DecidableEq

/-- JSON values appearing in the serialized user payloads. -/
inductive JVal where
  | num (n : Int)
  | str (s : String)
  | nullv
deriving Repr, DecidableEq

/-- Serialized user in the register response: the Prisma select names exactly
id, email, name and createdAt (src/server/routes/issues.js lines 544-551). -/
def registerUserPayload (u : User) : List (String × JVal) :=
  [("id", JVal.num u.id), ("email", JVal.str u.email),
   ("name", match u.name with | some n => JVal.str n | none => JVal.nullv),
   ("createdAt", JVal.num u.createdAt)]

/-- Serialized user in the login response: the rest-destructuring
`const (password: _, ...userWithoutPassword) = user` keeps every column but
password in order (src/server/routes/issues.js line 667). -/
def loginUserPayload (u : User) : List (String × JVal) :=
  [("id", JVal.num u.id), ("email", JVal.str u.email),
   ("name", match u.name with | some n => JVal.str n | none => JVal.nullv),
   ("createdAt", JVal.num u.createdAt), ("updatedAt", JVal.num u.updatedAt)]

/-- Outcome of the register and login routes. -/
inductive AuthOutcome where
  | error (status : Nat) (message : String)
  | ok (status : Nat) (userPayload : List (String × JVal)) (token : String)
deriving Repr, DecidableEq

/-- True on characters the regex class [^\s@] excludes nothing of: no
whitespace and no at sign. -/
def plainEmailChar (c : Char) : Bool := !c.isWhitespace && !(c == '@')

/-- Model of the route's email regex test: the pattern splits the string as
part@rest with both parts free of whitespace and at signs, the local part
non-empty, and rest decomposable around some dot with non-empty sides — i.e.
rest has a dot that is neither its first nor its last character. -/
def emailFormatOk (s : String) : Bool :=
  match splitChar '@' s with
  | [a, r] =>
    !(a == "") && a.data.all plainEmailChar && r.data.all plainEmailChar &&
    (r.data.drop 1).dropLast.contains '.'
  | _ => false

/-- Model of POST /api/auth/register (src/server/routes/issues.js lines
472-591): required fields, email format, password length, uniqueness, then
hash, insert and sign.  hash models bcrypt.hash, sign models jwt.sign; newId
and now stand for the auto-increment id and the server clock.  Returns the
outcome and the users table afterwards. -/
def register (users : List User) (hash : String → String) (sign : Int → String → String)
    (newId now : Int) (email password name : Option String) : AuthOutcome × List User :=
  if !truthy email || !truthy password then
    (.error 400 "Email and password are required", users)
  else if !emailFormatOk (email.getD "") then
    (.error 400 "Please provide a valid email address", users)
  else if (password.getD "").length < 6 then
    (.error 400 "Password must be at least 6 characters long", users)
  else
    match users.find? (fun u => u.email == email.getD "") with
    | some _ => (.error 409 "User with this email already exists", users)
    | none =>
      let newUser : User := {
        id := newId
        email := email.getD ""
        password := hash (password.getD "")
        name := name
        createdAt := now
        updatedAt := now }
      (.ok 201 (registerUserPayload newUser) (sign newUser.id newUser.email), newUser :: users)

/-- Model of POST /api/auth/login (src/server/routes/issues.js lines 598-686):
required fields, user lookup, bcrypt.compare — modelled as the comparison
function — with the same generic 401 for both failures, then the response with
password destructured away. -/
def login (users : List User) (compare : String → String → Bool) (sign : Int → String → String)
    (email password : Option String) : AuthOutcome :=
  if !truthy email || !truthy password then
    .error 400 "Email and password are required"
  else
    match users.find? (fun u => u.email == email.getD "") with
    | none => .error 401 "Invalid email or password"
    | some u =>
      if !(compare (password.getD "") u.password) then .error 401 "Invalid email or password"
      else .ok 200 (loginUserPayload u) (sign u.id u.email)

/-- Concrete issue used by witnesses: the spec's own scenario issue, owned by
user 1. -/
def demoIssue : Issue := {
  id := 1
  title := "Login broken"
  description := "Cannot log in with valid credentials"
  status := "Open"
  priority := "High"
  severity := "Medium"
  userId := 1
  createdAt := 5 }

/-- The demo issue stored under id 5. -/
def demoIssue5 : Issue := { demoIssue with id := 5 }

/-- A title of 200 characters: inside the route's 255 bound, outside the
column's 191. -/
def title200 : String := String.mk (List.replicate 200 'a')

/-- A title of exactly the column capacity. -/
def title191 : String := String.mk (List.replicate 191 'a')

/-- A description satisfying the 10..5000 rule. -/
def demoDescription : String := "This description is long enough."

/-- C3 (amended): a protected request whose bearer token fails the signature
or expiry check is rejected by the Access Guard with HTTP 403 and the message
"Invalid or expired token." — a different status than the 401 used for a
missing token — and no downstream handler runs: the protected route returns
the rejection whatever the handler would have produced.  (The claim's 401 is
what the spec's taxonomy predicts; both copies of the middleware return
403.) -/
theorem invalid_token_rejected_with_403 (verify : String → Option AuthedUser)
    (authHeader : Option String) (tk : String)
    (hex : extractToken authHeader = some tk) (hv : verify tk = none) :
    authenticateToken verify authHeader = GuardOutcome.reject 403 "Invalid or expired token." ∧
    ∀ handler : AuthedUser → Nat × String,
      protectedRoute verify handler authHeader = (403, "Invalid or expired token.") := by
  have h1 : authenticateToken verify authHeader =
      GuardOutcome.reject 403 "Invalid or expired token." := by
    simp [authenticateToken, hex, hv]
  exact ⟨h1, fun handler => by unfold protectedRoute; rw [h1]⟩

/-- Witness for C3's amended theorem: a concrete request whose token the
verifier refuses. -/
theorem invalid_token_rejected_with_403_witness :
    authenticateToken (fun _ => none) (some "Bearer sometoken") =
      GuardOutcome.reject 403 "Invalid or expired token." ∧
    ∀ handler : AuthedUser → Nat × String,
      protectedRoute (fun _ => none) handler (some "Bearer sometoken") =
        (403, "Invalid or expired token.") :=
  invalid_token_rejected_with_403 (fun _ => none) (some "Bearer sometoken") "sometoken"
    (by decide) rfl

/-- C3 counterexample: at the concrete request carrying a token that fails
verification, the middleware's status is 403, which is not the 401 the claim
asserts. -/
theorem invalid_token_status_is_not_401 :
    GuardOutcome.statusCode (authenticateToken (fun _ => none) (some "Bearer expiredtoken")) = 403 ∧
    (403 : Nat) ≠ 401 := by
  exact ⟨by decide, by decide⟩

/-- C8: page and limit default to 1 and 10; a non-numeric supplied value
falls back to the default for that parameter, and the request still succeeds
with status 200. -/
theorem list_params_default (store : Store) (callerId : Int) (q : ListQuery)
    (hp : q.page = none ∨ ∃ s, q.page = some s ∧ jsParseInt s = none)
    (hl : q.limit = none ∨ ∃ s, q.limit = some s ∧ jsParseInt s = none) :
    resolveIntParam 1 q.page = 1 ∧ resolveIntParam 10 q.limit = 10 ∧
    ∃ resp, listIssues store callerId q = Except.ok resp ∧
      resp.status = 200 ∧ resp.pagination.currentPage = 1 ∧ resp.pagination.limit = 10 := by
  have hp1 : resolveIntParam 1 q.page = 1 := by
    rcases hp with h | ⟨s, hs, hn⟩
    · rw [h]; rfl
    · rw [hs]; simp [resolveIntParam, hn]
  have hl1 : resolveIntParam 10 q.limit = 10 := by
    rcases hl with h | ⟨s, hs, hn⟩
    · rw [h]; rfl
    · rw [hs]; simp [resolveIntParam, hn]
  refine ⟨hp1, hl1, ?_⟩
  simp only [listIssues, hp1, hl1]
  rw [if_pos (by norm_num)]
  exact ⟨_, rfl, rfl, rfl, rfl⟩

/-- Witness for C8: non-numeric page and limit on a concrete store. -/
theorem list_params_default_witness :
    resolveIntParam 1 (some "abc") = 1 ∧ resolveIntParam 10 (some "ten") = 10 ∧
    ∃ resp, listIssues [demoIssue] 1 { page := some "abc", limit := some "ten" } = Except.ok resp ∧
      resp.status = 200 ∧ resp.pagination.currentPage = 1 ∧ resp.pagination.limit = 10 :=
  list_params_default [demoIssue] 1 { page := some "abc", limit := some "ten" }
    (Or.inr ⟨"abc", rfl, by decide⟩) (Or.inr ⟨"ten", rfl, by decide⟩)

/-- C6: on /api/issues/:id the checks run in the fixed order — 400 when the
id does not parse, otherwise 404 when no issue with that id exists, otherwise
403 when the issue belongs to someone else — identically in getById, update
and delete, so a non-owner probing an existing issue receives 403, never
404. -/
theorem id_checks_order (store : Store) (callerId : Int) (idParam : String) (b : IssueBody) :
    (jsParseInt idParam = none →
      getById store callerId idParam = GetOutcome.error 400 "Invalid issue ID" ∧
      updateIssue store callerId idParam b = UpdateOutcome.error 400 "Invalid issue ID" ∧
      deleteIssue store callerId idParam = DeleteOutcome.error 400 "Invalid issue ID") ∧
    (∀ n : Int, jsParseInt idParam = some n →
      (findIssue store n = none ↔ ∀ i ∈ store, i.id ≠ n) ∧
      (findIssue store n = none →
        getById store callerId idParam = GetOutcome.error 404 "Issue not found" ∧
        updateIssue store callerId idParam b = UpdateOutcome.error 404 "Issue not found" ∧
        deleteIssue store callerId idParam = DeleteOutcome.error 404 "Issue not found") ∧
      (∀ i : Issue, findIssue store n = some i → i.userId ≠ callerId →
        (getById store callerId idParam).statusCode = 403 ∧
        (updateIssue store callerId idParam b).statusCode = 403 ∧
        (deleteIssue store callerId idParam).statusCode = 403)) := by
  constructor
  · intro h
    exact ⟨by simp [getById, h], by simp [updateIssue, h], by simp [deleteIssue, h]⟩
  · intro n hn
    refine ⟨?_, ?_, ?_⟩
    · unfold findIssue
      rw [List.find?_eq_none]
      simp
    · intro hf
      exact ⟨by simp [getById, getByIdParsed, hn, hf],
             by simp [updateIssue, updateParsed, hn, hf],
             by simp [deleteIssue, deleteParsed, hn, hf]⟩
    · intro i hf ho
      refine ⟨?_, ?_, ?_⟩
      · simp [getById, getByIdParsed, hn, hf, ho, GetOutcome.statusCode]
      · simp [updateIssue, updateParsed, hn, hf, ho, UpdateOutcome.statusCode]
      · simp [deleteIssue, deleteParsed, hn, hf, ho, DeleteOutcome.statusCode]

/-- Witness for C6: user 2 probing user 1's existing issue receives 403 from
all three handlers. -/
theorem id_checks_order_witness :
    (getById [demoIssue] 2 "1").statusCode = 403 ∧
    (updateIssue [demoIssue] 2 "1" {}).statusCode = 403 ∧
    (deleteIssue [demoIssue] 2 "1").statusCode = 403 :=
  ((id_checks_order [demoIssue] 2 "1" {}).2 1 (by decide)).2.2 demoIssue (by decide) (by decide)

/-- C10 (implicit): parseInt keeps the numeric prefix of the :id parameter,
so "5abc" addresses issue 5 and proceeds to the existence/ownership stage in
all three handlers, while a parameter with no parseable leading integer such
as "abc" is the only kind rejected with the 400 Invalid issue ID response. -/
theorem id_param_leading_digits :
    (∀ (store : Store) (callerId : Int) (s : String) (n : Int) (b : IssueBody),
      jsParseInt s = some n →
        getById store callerId s = getByIdParsed store callerId n ∧
        updateIssue store callerId s b = updateParsed store callerId n b ∧
        deleteIssue store callerId s = deleteParsed store callerId n) ∧
    (∀ (store : Store) (callerId : Int) (s : String) (b : IssueBody),
      jsParseInt s = none →
        getById store callerId s = GetOutcome.error 400 "Invalid issue ID" ∧
        updateIssue store callerId s b = UpdateOutcome.error 400 "Invalid issue ID" ∧
        deleteIssue store callerId s = DeleteOutcome.error 400 "Invalid issue ID") ∧
    jsParseInt "5abc" = some 5 ∧ jsParseInt "abc" = none := by
  refine ⟨?_, ?_, by decide, by decide⟩
  · intro store callerId s n b hs
    exact ⟨by simp [getById, hs], by simp [updateIssue, hs], by simp [deleteIssue, hs]⟩
  · intro store callerId s b hs
    exact ⟨by simp [getById, hs], by simp [updateIssue, hs], by simp [deleteIssue, hs]⟩

/-- Witness for C10: "5abc" reaches the post-parse stage against a store
holding issue 5 and returns that issue. -/
theorem id_param_leading_digits_witness :
    getById [demoIssue5] 1 "5abc" = getByIdParsed [demoIssue5] 1 5 ∧
    getById [demoIssue5] 1 "5abc" = GetOutcome.ok demoIssue5 := by
  have h := (id_param_leading_digits.1 [demoIssue5] 1 "5abc" 5 {} (by decide)).1
  exact ⟨h, by rw [h]; decide⟩

/-- C4 (code-bug evidence): a title of 200 characters passes the route's
validation (its trimmed length is within the 255 bound) yet the insert is
rejected — the title column is VARCHAR(191) — so the create returns the
catch-all 500 instead of persisting; with 191 characters the same request
succeeds with 201. -/
theorem create_title_capacity_bug :
    (jsTrim title200).length ≤ 255 ∧
    (createIssue [] 1 { title := some title200, description := some demoDescription } 1 0).statusCode = 500 ∧
    (createIssue [] 1 { title := some title191, description := some demoDescription } 1 0).statusCode = 201 := by
  exact ⟨by decide, by decide, by decide⟩

/-- Keys of the register user payload are exactly the selected columns. -/
theorem registerUserPayload_keys (u : User) :
    (registerUserPayload u).map Prod.fst = ["id", "email", "name", "createdAt"] := rfl

/-- Keys of the login user payload are every column but password. -/
theorem loginUserPayload_keys (u : User) :
    (loginUserPayload u).map Prod.fst = ["id", "email", "name", "createdAt", "updatedAt"] := rfl

/-- C9: every successful register and every successful login serializes the
user without the password field: the key "password" is absent from the user
payload of both responses, whatever the inputs, hash and signer. -/
theorem auth_payloads_omit_password :
    (∀ (users : List User) (hash : String → String) (sign : Int → String → String)
        (newId now : Int) (email password name : Option String)
        (st : Nat) (payload : List (String × JVal)) (tok : String) (users2 : List User),
      register users hash sign newId now email password name = (AuthOutcome.ok st payload tok, users2) →
      "password" ∉ payload.map Prod.fst) ∧
    (∀ (users : List User) (compare : String → String → Bool) (sign : Int → String → String)
        (email password : Option String) (st : Nat) (payload : List (String × JVal)) (tok : String),
      login users compare sign email password = AuthOutcome.ok st payload tok →
      "password" ∉ payload.map Prod.fst) := by
  constructor
  · intro users hash sign newId now email password name st payload tok users2 h
    unfold register at h
    split_ifs at h
    · simp at h
    · simp at h
    · simp at h
    · revert h
      split
      · intro h; simp at h
      · intro h
        simp only [Prod.mk.injEq, AuthOutcome.ok.injEq] at h
        rw [← h.1.2.1, registerUserPayload_keys]
        decide
  · intro users compare sign email password st payload tok h
    unfold login at h
    split_ifs at h
    cases hfind : List.find? (fun u => u.email == email.getD "") users with
    | none => rw [hfind] at h; simp at h
    | some u =>
      rw [hfind] at h
      dsimp only at h
      split_ifs at h
      simp only [AuthOutcome.ok.injEq] at h
      rw [← h.2.1, loginUserPayload_keys]
      decide

/-- Concrete user record for witnesses (its password column holds the
hash). -/
def demoUser : User :=
  { id := 1, email := "a@b.c", password := "hashedpw", name := none, createdAt := 0, updatedAt := 0 }

/-- Witness for C9: a concrete successful registration and login, neither
payload carrying a password key. -/
theorem auth_payloads_omit_password_witness :
    ("password" ∉ (registerUserPayload demoUser).map Prod.fst) ∧
    ("password" ∉ (loginUserPayload demoUser).map Prod.fst) := by
  constructor
  · exact auth_payloads_omit_password.1 [] (fun _ => "hashedpw") (fun _ _ => "tok") 1 0
      (some "a@b.c") (some "secret1") none 201 (registerUserPayload demoUser) "tok" [demoUser]
      (by decide)
  · exact auth_payloads_omit_password.2 [demoUser] (fun _ _ => true) (fun _ _ => "tok")
      (some "a@b.c") (some "secret1") 200 (loginUserPayload demoUser) "tok" (by decide)

set_option maxHeartbeats 3200000 in
/-- Update body validation is equivalent to taking the first per-field error
in the fixed field order, and on success applying the accumulated updateData
object. -/
theorem updateWithBody_eq (store : Store) (issueId : Int) (existing : Issue) (b : IssueBody) :
    updateWithBody store issueId existing b =
      (match updateFirstError b with
       | some msg => UpdateOutcome.error 400 msg
       | none => UpdateOutcome.ok (applyData (updateDataOf b) existing)
           (applyUpdate store issueId (updateDataOf b))) := by
  obtain ⟨bt, bd, bs, bp, bv⟩ := b
  cases bt <;> cases bd <;> cases bs <;> cases bp <;> cases bv <;>
    simp only [updateWithBody, updateAfterTitle, updateAfterDescription, updateAfterStatus,
      updateAfterPriority, updateFirstError, updateDataOf, titleRuleError, descriptionRuleError,
      orFirst, Option.none_bind, Option.some_bind, Option.map_none', Option.map_some'] <;>
    split_ifs <;> rfl

/-- C2 (amended): for an update addressed to an existing issue owned by the
caller, every supplied field is validated — title and description with
create's trim-length rules, status/priority/severity by enum membership,
which agrees with create's rule for every non-empty value but also rejects
the empty string that create's truthiness guard silently defaults — the
outcome is the error of the first failing field in the fixed order title,
description, status, priority, severity, and on success every omitted field
keeps its prior stored value. -/
theorem update_partial_and_validated (store : Store) (callerId : Int) (idParam : String)
    (b : IssueBody) (issueId : Int) (existing : Issue)
    (hid : jsParseInt idParam = some issueId)
    (hfind : findIssue store issueId = some existing)
    (hown : existing.userId = callerId) :
    updateIssue store callerId idParam b =
      (match updateFirstError b with
       | some msg => UpdateOutcome.error 400 msg
       | none => UpdateOutcome.ok (applyData (updateDataOf b) existing)
           (applyUpdate store issueId (updateDataOf b))) ∧
    (∀ u st2, updateIssue store callerId idParam b = UpdateOutcome.ok u st2 →
      (b.title = none → u.title = existing.title) ∧
      (b.description = none → u.description = existing.description) ∧
      (b.status = none → u.status = existing.status) ∧
      (b.priority = none → u.priority = existing.priority) ∧
      (b.severity = none → u.severity = existing.severity)) := by
  have h1 : updateIssue store callerId idParam b = updateWithBody store issueId existing b := by
    unfold updateIssue updateParsed
    rw [hid]
    dsimp only
    rw [hfind]
    dsimp only
    rw [if_neg (by simp [hown])]
  rw [h1, updateWithBody_eq]
  refine ⟨rfl, ?_⟩
  intro u st2 hu
  revert hu
  split
  · intro hu; simp at hu
  · intro hu
    simp only [UpdateOutcome.ok.injEq] at hu
    obtain ⟨rfl, -⟩ := hu
    refine ⟨?_, ?_, ?_, ?_, ?_⟩ <;> intro hb <;> simp [applyData, updateDataOf, hb]

/-- Witness for C2's amended theorem: the spec's example — an update carrying
only status Closed succeeds and leaves title, description, priority and
severity unchanged. -/
theorem update_partial_and_validated_witness :
    updateIssue [demoIssue] 1 "1" { status := some "Closed" } =
      UpdateOutcome.ok { demoIssue with status := "Closed" } [{ demoIssue with status := "Closed" }] := by
  have h := (update_partial_and_validated [demoIssue] 1 "1" { status := some "Closed" } 1 demoIssue
    (by decide) (by decide) (by decide)).1
  rw [h]
  decide

/-- Create body carrying an empty-string status next to valid title and
description. -/
def cexCreateBody : IssueBody :=
  { title := some "Valid title", description := some "A sufficiently long description",
    status := some "" }

/-- The issue the create route persists for cexCreateBody: the empty-string
status is defaulted to Open. -/
def cexCreatedIssue : Issue :=
  { id := 2, title := "Valid title", description := "A sufficiently long description",
    status := "Open", priority := "Medium", severity := "Medium", userId := 1, createdAt := 0 }

/-- C2 counterexample: the supplied field status = "" is not validated with
the same rules as create — update rejects it with the 400 invalid-status
error, while create's truthiness guard skips the enum check for the identical
supplied value and succeeds, defaulting the status to Open. -/
theorem update_empty_enum_differs_from_create :
    updateIssue [demoIssue] 1 "1" { status := some "" } = UpdateOutcome.error 400 invalidStatusMsg ∧
    createIssue [] 1 cexCreateBody 2 0 = CreateOutcome.ok cexCreatedIssue [cexCreatedIssue] := by
  exact ⟨by decide, by decide⟩

/-- Lookup misses a key absent from the key list. -/
theorem lookup_eq_none_of_not_mem (l : List (String × Nat)) (k : String)
    (h : k ∉ l.map Prod.fst) : l.lookup k = none := by
  induction l with
  | nil => rfl
  | cons p rest ih =>
    obtain ⟨k1, v1⟩ := p
    simp only [List.map_cons, List.mem_cons, not_or] at h
    rw [List.lookup_cons]
    have hne : (k == k1) = false := by simpa using h.1
    simp [hne, ih h.2]

/-- Lookup in a list tabulating a function over keys. -/
theorem lookup_tabulate (ks : List String) (f : String → Nat) (s : String) :
    (ks.map (fun k => (k, f k))).lookup s = if s ∈ ks then some (f s) else none := by
  induction ks with
  | nil => simp
  | cons k rest ih =>
    by_cases h : s = k
    · subst h
      simp [List.lookup_cons]
    · have hne : (s == k) = false := by simpa using h
      simp [List.lookup_cons, hne, ih, h]

/-- Keys of the groupBy result are the distinct statuses. -/
theorem groupByStatus_keys (l : List Issue) :
    (groupByStatus l).map Prod.fst = (l.map Issue.status).dedup := by
  unfold groupByStatus
  rw [List.map_map]
  simp [Function.comp_def]

/-- Lookup in the groupBy result: the count of that status when it occurs,
nothing otherwise. -/
theorem lookup_groupByStatus (l : List Issue) (s : String) :
    (groupByStatus l).lookup s =
      if s ∈ (l.map Issue.status).dedup then some ((l.filter (fun i => i.status == s)).length)
      else none := by
  unfold groupByStatus
  exact lookup_tabulate _ _ s

/-- A status occurring in none of the rows has count zero. -/
theorem count_eq_zero_of_not_mem (l : List Issue) (s : String)
    (h : s ∉ l.map Issue.status) :
    (l.filter (fun i => i.status == s)).length = 0 := by
  rw [List.length_eq_zero, List.filter_eq_nil_iff]
  intro i hi
  simp only [beq_iff_eq]
  intro hs
  exact h (hs ▸ List.mem_map_of_mem Issue.status hi)

/-- Folding the groupBy entries into the seeded four-key object keeps exactly
the four keys and overwrites each with the grouped count when present. -/
theorem foldl_setKey_four (gb : List (String × Nat))
    (hk : ∀ p ∈ gb, p.1 = "Open" ∨ p.1 = "InProgress" ∨ p.1 = "Resolved" ∨ p.1 = "Closed")
    (hnd : (gb.map Prod.fst).Nodup) :
    ∀ a b c d : Nat,
      gb.foldl (fun acc p => setKey acc p.1 p.2)
        [("Open", a), ("InProgress", b), ("Resolved", c), ("Closed", d)] =
      [("Open", (gb.lookup "Open").getD a),
       ("InProgress", (gb.lookup "InProgress").getD b),
       ("Resolved", (gb.lookup "Resolved").getD c),
       ("Closed", (gb.lookup "Closed").getD d)] := by
  induction gb with
  | nil => intro a b c d; rfl
  | cons p rest ih =>
    intro a b c d
    obtain ⟨k, v⟩ := p
    have hk0 := hk (k, v) (List.mem_cons_self _ _)
    simp only [List.map_cons, List.nodup_cons] at hnd
    have hkr : ∀ q ∈ rest, q.1 = "Open" ∨ q.1 = "InProgress" ∨ q.1 = "Resolved" ∨ q.1 = "Closed" :=
      fun q hq => hk q (List.mem_cons_of_mem _ hq)
    have hlkk : rest.lookup k = none := lookup_eq_none_of_not_mem rest k hnd.1
    rcases hk0 with h | h | h | h <;> subst h <;>
      simp only [List.foldl_cons, setKey] <;> simp <;>
      rw [ih hkr hnd.2] <;>
      simp [List.lookup_cons, hlkk]

/-- C7: for every caller getStats returns the counts object with exactly the
four status keys — each the number of the caller's issues with that status,
zero when there are none — and a total equal to the sum of the four counts
(the well-formedness hypothesis records the ENUM column constraint: every
stored status is one of the four declared values). -/
theorem getStats_four_keys_and_total (store : Store) (callerId : Int)
    (hwf : ∀ i ∈ store, i.status ∈ validStatuses) :
    getStats store callerId = {
      counts := [("Open", statusCount store callerId "Open"),
                 ("InProgress", statusCount store callerId "InProgress"),
                 ("Resolved", statusCount store callerId "Resolved"),
                 ("Closed", statusCount store callerId "Closed")],
      total := statusCount store callerId "Open" + statusCount store callerId "InProgress" +
               statusCount store callerId "Resolved" + statusCount store callerId "Closed" } := by
  unfold getStats statusCount
  have hwf2 : ∀ i ∈ store.filter (fun i => i.userId == callerId), i.status ∈ validStatuses :=
    fun i hi => hwf i (List.mem_of_mem_filter hi)
  have hk : ∀ p ∈ groupByStatus (store.filter (fun i => i.userId == callerId)),
      p.1 = "Open" ∨ p.1 = "InProgress" ∨ p.1 = "Resolved" ∨ p.1 = "Closed" := by
    intro p hp
    have h1 : p.1 ∈ (groupByStatus (store.filter (fun i => i.userId == callerId))).map Prod.fst :=
      List.mem_map_of_mem Prod.fst hp
    rw [groupByStatus_keys, List.mem_dedup] at h1
    obtain ⟨i, hi, hs⟩ := List.mem_map.mp h1
    have := hwf2 i hi
    rw [hs] at this
    simpa [validStatuses] using this
  have hnd : ((groupByStatus (store.filter (fun i => i.userId == callerId))).map Prod.fst).Nodup := by
    rw [groupByStatus_keys]; exact List.nodup_dedup _
  have hcount : ∀ s : String,
      ((groupByStatus (store.filter (fun i => i.userId == callerId))).lookup s).getD 0 =
      ((store.filter (fun i => i.userId == callerId)).filter (fun i => i.status == s)).length := by
    intro s
    rw [lookup_groupByStatus]
    by_cases h : s ∈ ((store.filter (fun i => i.userId == callerId)).map Issue.status).dedup
    · simp [h]
    · rw [if_neg h]
      rw [List.mem_dedup] at h
      rw [count_eq_zero_of_not_mem _ _ h]
      rfl
  dsimp only
  rw [show seedCounts = [("Open", 0), ("InProgress", 0), ("Resolved", 0), ("Closed", 0)] from rfl]
  rw [foldl_setKey_four _ hk hnd 0 0 0 0]
  simp only [hcount]
  simp only [StatsResponse.mk.injEq, List.map_cons, List.map_nil, List.sum_cons, List.sum_nil]
  exact ⟨trivial, by omega⟩

/-- Witness for C7: the claim's own example — a caller with zero issues gets
all four keys at 0 and total 0. -/
theorem getStats_four_keys_and_total_witness :
    getStats [] 1 = {
      counts := [("Open", 0), ("InProgress", 0), ("Resolved", 0), ("Closed", 0)], total := 0 } := by
  have h := getStats_four_keys_and_total [] 1 (by intro i hi; cases hi)
  simpa using h

/-- Membership is preserved by the ordered insert. -/
theorem mem_insertByCreated (x i : Issue) (l : List Issue) :
    x ∈ insertByCreated i l ↔ x = i ∨ x ∈ l := by
  induction l with
  | nil => simp [insertByCreated]
  | cons j rest ih =>
    unfold insertByCreated
    split_ifs with h
    · simp
    · simp [ih]
      tauto

/-- Sorting preserves membership. -/
theorem mem_sortByCreatedDesc (x : Issue) (l : List Issue) :
    x ∈ sortByCreatedDesc l ↔ x ∈ l := by
  unfold sortByCreatedDesc
  induction l with
  | nil => simp
  | cons j rest ih =>
    simp only [List.foldr_cons, mem_insertByCreated, List.mem_cons, ih]

/-- A truthiness-guarded condition of the where object holds exactly when
every supplied non-empty value satisfies it. -/
theorem truthy_guard_iff (o : Option String) (f : String → Bool) :
    ((if truthy o then f (o.getD "") else true) = true) ↔
      (∀ v, o = some v → v ≠ "" → f v = true) := by
  cases o with
  | none => simp [truthy]
  | some s =>
    by_cases h : s = ""
    · subst h; simp [truthy]
    · simp [truthy, h]

/-- The where object built by the list route is equivalent to the
specification predicate of claim C1. -/
theorem listWhere_iff_specListPred (callerId : Int) (q : ListQuery) (i : Issue) :
    listWhere callerId q i = true ↔ specListPred callerId q i := by
  unfold listWhere specListPred
  simp only [Bool.and_eq_true]
  rw [truthy_guard_iff q.search (fun v => containsCI i.title v || containsCI i.description v),
    truthy_guard_iff q.status (fun v => i.status == v),
    truthy_guard_iff q.priority (fun v => i.priority == v),
    truthy_guard_iff q.severity (fun v => i.severity == v)]
  simp [Bool.or_eq_true, and_assoc]

/-- Every row of a page window comes from the ordered rows it was cut
from. -/
theorem mem_of_mem_pageWindow (x : Issue) (sorted : List Issue) (skip take : Int)
    (hx : x ∈ pageWindow sorted skip take) : x ∈ sorted := by
  unfold pageWindow at hx
  split_ifs at hx
  · exact List.mem_of_mem_drop (List.mem_of_mem_take hx)
  · rw [List.mem_reverse] at hx
    have h2 := List.mem_of_mem_drop (List.mem_of_mem_take hx)
    rwa [List.mem_reverse] at h2

/-- Shape of a successful list response: the page is the skip/take window
over the sorted matching rows, the pagination fields are as computed, and the
resolved skip is nonnegative. -/
theorem listIssues_ok_shape (store : Store) (callerId : Int) (q : ListQuery) (resp : ListResponse)
    (h : listIssues store callerId q = Except.ok resp) :
    resp.status = 200 ∧
    resp.issues = pageWindow (sortByCreatedDesc (store.filter (listWhere callerId q)))
        ((resolveIntParam 1 q.page - 1) * resolveIntParam 10 q.limit)
        (resolveIntParam 10 q.limit) ∧
    resp.pagination = {
      currentPage := resolveIntParam 1 q.page
      totalPages := jsCeilDiv (store.filter (listWhere callerId q)).length
        (resolveIntParam 10 q.limit)
      totalCount := (store.filter (listWhere callerId q)).length
      limit := resolveIntParam 10 q.limit
      hasNextPage := decide (resolveIntParam 1 q.page <
        jsCeilDiv (store.filter (listWhere callerId q)).length (resolveIntParam 10 q.limit))
      hasPreviousPage := decide (1 < resolveIntParam 1 q.page) } ∧
    0 ≤ (resolveIntParam 1 q.page - 1) * resolveIntParam 10 q.limit := by
  unfold listIssues at h
  dsimp only at h
  split_ifs at h with hcond
  simp only [Except.ok.injEq] at h
  rw [← h]
  exact ⟨rfl, rfl, rfl, hcond⟩

/-- C1: every issue in a list response belongs to the caller; every returned
issue satisfies the claim's predicate; and an issue matches the route's where
object exactly when it satisfies the claim's predicate — owner scope ANDed
with the case-insensitive title-OR-description search when a term is supplied
and with each supplied equality filter. -/
theorem listIssues_owner_scope_and_search (store : Store) (callerId : Int) (q : ListQuery)
    (resp : ListResponse) (h : listIssues store callerId q = Except.ok resp) :
    (∀ i ∈ resp.issues, i.userId = callerId) ∧
    (∀ i ∈ resp.issues, specListPred callerId q i) ∧
    (∀ i : Issue, listWhere callerId q i = true ↔ specListPred callerId q i) := by
  have hshape := listIssues_ok_shape store callerId q resp h
  have hmem : ∀ i ∈ resp.issues, listWhere callerId q i = true := by
    intro i hi
    rw [hshape.2.1] at hi
    have h2 := mem_of_mem_pageWindow _ _ _ _ hi
    rw [mem_sortByCreatedDesc] at h2
    exact (List.mem_filter.mp h2).2
  exact ⟨fun i hi => ((listWhere_iff_specListPred callerId q i).mp (hmem i hi)).1,
         fun i hi => (listWhere_iff_specListPred callerId q i).mp (hmem i hi),
         fun i => listWhere_iff_specListPred callerId q i⟩

/-- The resolved page and limit parameters are never zero. -/
theorem resolveIntParam_ne_zero (dflt : Int) (q : Option String) (hd : dflt ≠ 0) :
    resolveIntParam dflt q ≠ 0 := by
  cases q with
  | none => simpa [resolveIntParam] using hd
  | some s =>
    cases hj : jsParseInt s with
    | none => simpa [resolveIntParam, hj] using hd
    | some v =>
      by_cases hv : v = 0
      · subst hv; simp [resolveIntParam, hj]; exact hd
      · simp [resolveIntParam, hj, hv]

/-- Bounds pinning ceilDivNat as the ceiling. -/
theorem ceilDivNat_bounds (a b : Nat) (hb : 0 < b) :
    a ≤ ceilDivNat a b * b ∧ (ceilDivNat a b : Int) * b - b < a := by
  unfold ceilDivNat
  have e := Nat.div_add_mod (a + b - 1) b
  rw [mul_comm] at e
  have hr := Nat.mod_lt (a + b - 1) hb
  have h1 : a ≤ (a + b - 1) / b * b := by omega
  have h2 : (a + b - 1) / b * b < a + b := by omega
  refine ⟨h1, ?_⟩
  rw [sub_lt_iff_lt_add]
  exact_mod_cast h2

/-- ceilDivNat computes Math.ceil of the rational quotient. -/
theorem ceilDivNat_eq_ceil (a b : Nat) (hb : 0 < b) :
    ((ceilDivNat a b : Nat) : Int) = Int.ceil ((a : ℚ) / (b : ℚ)) := by
  obtain ⟨h1, h2⟩ := ceilDivNat_bounds a b hb
  have hbQ : (0 : ℚ) < (b : ℚ) := by exact_mod_cast hb
  rw [eq_comm, Int.ceil_eq_iff]
  constructor
  · rw [lt_div_iff₀ hbQ]
    have h2Q : ((ceilDivNat a b : Nat) : ℚ) * (b : ℚ) - (b : ℚ) < (a : ℚ) := by exact_mod_cast h2
    push_cast
    linarith
  · rw [div_le_iff₀ hbQ]
    exact_mod_cast h1

/-- Floor division on naturals computes the rational floor. -/
theorem floorDivNat_eq_floor (a b : Nat) (hb : 0 < b) :
    ((a / b : Nat) : Int) = Int.floor ((a : ℚ) / (b : ℚ)) := by
  have hbQ : (0 : ℚ) < (b : ℚ) := by exact_mod_cast hb
  have e := Nat.div_add_mod a b
  rw [mul_comm] at e
  have hr := Nat.mod_lt a hb
  rw [eq_comm, Int.floor_eq_iff]
  constructor
  · rw [le_div_iff₀ hbQ]
    exact_mod_cast (by omega : a / b * b ≤ a)
  · have hnat : a < a / b * b + b := by omega
    rw [div_lt_iff₀ hbQ, add_mul, one_mul]
    exact_mod_cast hnat

/-- jsCeilDiv computes Math.ceil of the rational quotient for every nonzero
divisor, the negative side included. -/
theorem jsCeilDiv_eq_ceil (a : Nat) (b : Int) (hb : b ≠ 0) :
    jsCeilDiv a b = Int.ceil ((a : ℚ) / (b : ℚ)) := by
  unfold jsCeilDiv
  split_ifs with h
  · have hbp : 0 < b := lt_of_le_of_ne h (Ne.symm hb)
    have hbn : 0 < b.toNat := by omega
    rw [ceilDivNat_eq_ceil a b.toNat hbn]
    congr 1
    congr 1
    exact_mod_cast congrArg (fun z : Int => (z : ℚ)) (Int.toNat_of_nonneg h)
  · push_neg at h
    have hbn : 0 < (-b).toNat := by omega
    have hcast : (((-b).toNat : Nat) : ℚ) = -(b : ℚ) := by
      exact_mod_cast congrArg (fun z : Int => (z : ℚ)) (Int.toNat_of_nonneg (by omega : (0:Int) ≤ -b))
    rw [show ((a : ℚ) / (b : ℚ)) = -((a : ℚ) / (((-b).toNat : Nat) : ℚ)) from by
      rw [hcast, div_neg, neg_neg]]
    rw [Int.ceil_neg, ← floorDivNat_eq_floor a (-b).toNat hbn]

/-- C5 (amended): in every list response the store executes (nonnegative
skip; a negative skip is rejected and surfaces as the catch-all 500):
totalCount counts all rows matching the same where object ignoring skip and
take; totalPages is the ceiling of totalCount/limit; hasNextPage and
hasPreviousPage are page < totalPages and page > 1; and when the resolved
limit is positive the page is the skip = (page-1)*limit / take = limit window
of the ordered matching rows, so issues.length is at most limit — while a
negative resolved limit (e.g. ?limit=-1) is Prisma's take-from-the-end and
returns the last |limit| ordered matching rows after the skip, so
issues.length can exceed limit. -/
theorem listIssues_pagination_math (store : Store) (callerId : Int) (q : ListQuery)
    (resp : ListResponse) (h : listIssues store callerId q = Except.ok resp) :
    resp.pagination.totalCount = (store.filter (listWhere callerId q)).length ∧
    resp.pagination.totalPages =
      Int.ceil ((resp.pagination.totalCount : ℚ) / (resp.pagination.limit : ℚ)) ∧
    (resp.pagination.hasNextPage = true ↔ resp.pagination.currentPage < resp.pagination.totalPages) ∧
    (resp.pagination.hasPreviousPage = true ↔ 1 < resp.pagination.currentPage) ∧
    (0 < resp.pagination.limit →
      resp.issues = ((sortByCreatedDesc (store.filter (listWhere callerId q))).drop
          (((resolveIntParam 1 q.page - 1) * resolveIntParam 10 q.limit).toNat)).take
          ((resolveIntParam 10 q.limit).toNat) ∧
      ((resp.issues.length : Int) ≤ resp.pagination.limit)) ∧
    (resp.pagination.limit < 0 →
      resp.issues = ((((sortByCreatedDesc (store.filter (listWhere callerId q))).reverse).drop
          (((resolveIntParam 1 q.page - 1) * resolveIntParam 10 q.limit).toNat)).take
          ((-(resolveIntParam 10 q.limit)).toNat)).reverse) := by
  obtain ⟨hst, hiss, hpg, hskip⟩ := listIssues_ok_shape store callerId q resp h
  have hlim0 : resolveIntParam 10 q.limit ≠ 0 := resolveIntParam_ne_zero 10 q.limit (by norm_num)
  refine ⟨?_, ?_, ?_, ?_, ?_, ?_⟩
  · rw [hpg]
  · rw [hpg]
    dsimp only
    exact jsCeilDiv_eq_ceil _ _ hlim0
  · rw [hpg]
    dsimp only
    simp
  · rw [hpg]
    dsimp only
    simp
  · intro hpos
    rw [hpg] at hpos
    dsimp only at hpos
    have hle : (0 : Int) ≤ resolveIntParam 10 q.limit := le_of_lt hpos
    have hwin : resp.issues = ((sortByCreatedDesc (store.filter (listWhere callerId q))).drop
        (((resolveIntParam 1 q.page - 1) * resolveIntParam 10 q.limit).toNat)).take
        ((resolveIntParam 10 q.limit).toNat) := by
      rw [hiss]
      unfold pageWindow
      rw [if_pos hle]
    refine ⟨hwin, ?_⟩
    rw [hwin, hpg]
    dsimp only
    have hlen : (((sortByCreatedDesc (store.filter (listWhere callerId q))).drop
        (((resolveIntParam 1 q.page - 1) * resolveIntParam 10 q.limit).toNat)).take
        ((resolveIntParam 10 q.limit).toNat)).length ≤ (resolveIntParam 10 q.limit).toNat := by
      rw [List.length_take]
      exact min_le_left _ _
    calc ((((sortByCreatedDesc (store.filter (listWhere callerId q))).drop
        (((resolveIntParam 1 q.page - 1) * resolveIntParam 10 q.limit).toNat)).take
        ((resolveIntParam 10 q.limit).toNat)).length : Int)
        ≤ (((resolveIntParam 10 q.limit).toNat : Nat) : Int) := by exact_mod_cast hlen
      _ = resolveIntParam 10 q.limit := Int.toNat_of_nonneg hle
  · intro hneg
    rw [hpg] at hneg
    dsimp only at hneg
    rw [hiss]
    unfold pageWindow
    rw [if_neg (by omega)]

/-- The response of a default-parameter list call over a one-issue store. -/
def demoListResponse : ListResponse := {
  status := 200
  issues := [demoIssue]
  pagination := {
    currentPage := 1
    totalPages := 1
    totalCount := 1
    limit := 10
    hasNextPage := false
    hasPreviousPage := false } }

/-- Witness for C1: a search for "LOGIN" matches the demo issue
case-insensitively and every part of the theorem holds at this call. -/
theorem listIssues_owner_scope_and_search_witness :
    (∀ i ∈ demoListResponse.issues, i.userId = 1) ∧
    (∀ i ∈ demoListResponse.issues, specListPred 1 { search := some "LOGIN" } i) ∧
    (∀ i : Issue, listWhere 1 { search := some "LOGIN" } i = true ↔
      specListPred 1 { search := some "LOGIN" } i) :=
  listIssues_owner_scope_and_search [demoIssue] 1 { search := some "LOGIN" } demoListResponse
    (by rfl)

/-- The response of GET /api/issues?limit=-1 over the one-issue store: the
negative take returns the last matching row, and Math.ceil(1 / -1) makes
totalPages -1. -/
def negTakeResponse : ListResponse := {
  status := 200
  issues := [demoIssue]
  pagination := {
    currentPage := 1
    totalPages := -1
    totalCount := 1
    limit := -1
    hasNextPage := false
    hasPreviousPage := false } }

/-- C5 counterexample: at the concrete call with limit=-1 the resolved page
is 1 and the resolved limit -1 (skip 0, take -1); the store accepts the
negative take and the route answers 200 with the last matching row, so
issues.length = 1 exceeds limit = -1 and the claimed issues.length <= limit
fails at a call with resolved integer page and limit. -/
theorem list_negative_take_breaks_length_bound :
    listIssues [demoIssue] 1 { limit := some "-1" } = Except.ok negTakeResponse ∧
    ¬((negTakeResponse.issues.length : Int) ≤ negTakeResponse.pagination.limit) := by
  exact ⟨by rfl, by decide⟩

/-- Witness for C5's amended theorem: the pagination invariants at the
concrete default call, whose resolved limit 10 is positive. -/
theorem listIssues_pagination_math_witness :
    ((demoListResponse.issues.length : Int) ≤ demoListResponse.pagination.limit) ∧
    demoListResponse.pagination.totalPages =
      Int.ceil ((demoListResponse.pagination.totalCount : ℚ) / (demoListResponse.pagination.limit : ℚ)) ∧
    (demoListResponse.pagination.hasNextPage = true ↔
      demoListResponse.pagination.currentPage < demoListResponse.pagination.totalPages) := by
  have h := listIssues_pagination_math [demoIssue] 1 {} demoListResponse (by rfl)
  exact ⟨(h.2.2.2.2.1 (by decide)).2, h.2.1, h.2.2.1⟩

end IssueTracker







